import Mathlib

/-!
Shallow embedding of `demo/agent.py` (class `DemoAgent`) from the
aries-cloudagent-python demo harness, together with theorems checking the
natural-language specification against it.

Modelling conventions:
* HTTP traffic is represented by explicit response values (`HttpResp`,
  `PollResult`); the network environment of the readiness probe is a function
  `Nat → PollResult` giving the response the i-th poll would receive.
* `json.loads` (a library call, not repository code) is abstracted as a
  decoder `String → Option J` over an abstract payload type `J`; Python's
  `json.loads("")` failing is reflected, where needed, by the hypothesis
  `dec "" = none`.
* Python exceptions are modelled with `Except String`, carrying the message.
* Handler invocation (`await method(payload)`) is modelled by an event list
  of (attribute name, payload) pairs.
-/

/-- Python's `needle in haystack` on the character list of a string:
does `ns` start the list? -/
def beginsWith : List Char → List Char → Bool
  | [], _ => true
  | _ :: _, [] => false
  | n :: ns, h :: hs => n = h && beginsWith ns hs

/-- Does the needle occur contiguously somewhere in the haystack? -/
def occursIn : List Char → List Char → Bool
  | ns, [] => beginsWith ns []
  | ns, h :: hs => beginsWith ns (h :: hs) || occursIn ns hs

/-- Python's substring test `needle in hay`. -/
def strContains (hay needle : String) : Bool :=
  occursIn needle.toList hay.toList

/-- Python's string slicing `s[:n]`. -/
def strTake (s : String) (n : Nat) : String :=
  String.mk (s.toList.take n)

/-- Python's falsy-`or` on an optional string argument:
`arg or dflt` is `dflt` when the argument is `None` or empty. -/
def pyOr (arg : Option String) (dflt : String) : String :=
  match arg with
  | none => dflt
  | some v => if v = "" then dflt else v

/-- URL construction used by `DemoAgent.__init__`. -/
def mkUrl (host : String) (port : Nat) : String :=
  "http://" ++ host ++ ":" ++ toString port

/-- The mutable per-agent fields relevant to URL derivation
(`DemoAgent.__init__`, lines 64-84, and `listen_webhooks`, lines 260-262). -/
structure DemoAgentState where
  ident : String
  http_port : Nat
  admin_port : Nat
  internal_host : String
  external_host : String
  endpoint : String
  admin_url : String
  webhook_port : Option Nat
  webhook_url : Option String
deriving DecidableEq

/-- `DemoAgent.__init__`: hosts default through Python `or`, and
`endpoint` / `admin_url` are derived from the external host and the ports;
`webhook_port` and `webhook_url` start as `None`. -/
def DemoAgent_init (ident : String) (http_port admin_port : Nat)
    (internal_host external_host : Option String) : DemoAgentState :=
  { ident := ident
    http_port := http_port
    admin_port := admin_port
    internal_host := pyOr internal_host ("127.0.0.1")
    external_host := pyOr external_host ("localhost")
    endpoint := mkUrl (pyOr external_host ("localhost")) http_port
    admin_url := mkUrl (pyOr external_host ("localhost")) admin_port
    webhook_port := none
    webhook_url := none }

/-- `DemoAgent.listen_webhooks`: records the webhook port and derives
`webhook_url` from the external host and that port; all other fields are
left untouched. -/
def listen_webhooks (s : DemoAgentState) (webhook_port : Nat) : DemoAgentState :=
  { s with
    webhook_port := some webhook_port
    webhook_url := some (mkUrl s.external_host webhook_port ++ "/webhooks") }

/-- An HTTP response as seen by the client: status code and body text. -/
structure HttpResp where
  status : Nat
  body : String
deriving DecidableEq

/-- Result value of `DemoAgent.admin_request`: Python `None`, a parsed JSON
object, or the raw body text (when `text=True`). -/
inductive AdminValue (J : Type) where
  | null : AdminValue J
  | json (v : J) : AdminValue J
  | text (s : String) : AdminValue J
deriving DecidableEq

/-- `DemoAgent.admin_request` (lines 282-296), given the response the admin
server produced.  `dec` abstracts `json.loads` (`none` = `JSONDecodeError`),
`tmode` is the `text` keyword argument. -/
def admin_request {J : Type} (dec : String → Option J) (resp : HttpResp)
    (tmode : Bool) : Except String (AdminValue J) :=
  if resp.status < 200 ∨ resp.status > 299 then
    Except.error ("Unexpected HTTP response: " ++ toString resp.status)
  else if resp.body = "" ∧ tmode = false then
    Except.ok AdminValue.null
  else if tmode = false then
    match dec resp.body with
    | some v => Except.ok (AdminValue.json v)
    | none => Except.error ("Error decoding JSON: " ++ resp.body)
  else
    Except.ok (AdminValue.text resp.body)

/-- `DemoAgent.admin_GET`: delegates to `admin_request` with method "GET". -/
def admin_GET {J : Type} (dec : String → Option J) (resp : HttpResp)
    (tmode : Bool) : Except String (AdminValue J) :=
  admin_request dec resp tmode

/-- `DemoAgent.admin_POST`: delegates to `admin_request` with method "POST". -/
def admin_POST {J : Type} (dec : String → Option J) (resp : HttpResp)
    (tmode : Bool) : Except String (AdminValue J) :=
  admin_request dec resp tmode

/-- `DemoAgent.handle_webhook` (lines 276-280): for any topic other than
"webhook", look up the attribute `handle_{topic}` and, when it exists, invoke
it once with the payload.  `hasHandler` abstracts `getattr(self, name, None)`
being non-`None`; the returned list records the invocations performed. -/
def handle_webhook {J : Type} (hasHandler : String → Bool) (topic : String)
    (payload : J) : List (String × J) :=
  if topic ≠ "webhook" then
    if hasHandler ("handle_" ++ topic) then [("handle_" ++ topic, payload)]
    else []
  else []

/-- `DemoAgent._receive_webhook` (lines 270-274): parse the JSON body,
dispatch through `handle_webhook`, and answer `web.Response(text="")`
(status 200, empty body).  A body that fails to parse propagates as an
error before any response is produced. -/
def receive_webhook {J : Type} (hasHandler : String → Bool)
    (dec : String → Option J) (topic : String) (body : String) :
    Except String (HttpResp × List (String × J)) :=
  match dec body with
  | none => Except.error ("Invalid JSON body")
  | some payload =>
    Except.ok (HttpResp.mk 200 "", handle_webhook hasHandler topic payload)

/-- Outcome of `proc.wait(timeout=...)`: normal exit with a return code, or
`subprocess.TimeoutExpired`. -/
inductive WaitOutcome where
  | exited (code : Int) : WaitOutcome
  | timedOut : WaitOutcome
deriving DecidableEq

/-- Abstraction of a spawned process handle: `pollResult` is what
`proc.poll()` returns (an exit code when the process already exited), and
`wait t` is the outcome of `proc.wait(timeout=t)`. -/
structure ProcHandle where
  pollResult : Option Int
  wait : ℚ → WaitOutcome

/-- The timeout passed to `proc.wait` in `DemoAgent._terminate`. -/
def terminateTimeout : ℚ := 1 / 2

/-- `DemoAgent._terminate` (lines 241-250): a running process is terminated
and awaited for `terminateTimeout` seconds; `TimeoutExpired` escalates to an
exception. -/
def _terminate (proc : Option ProcHandle) : Except String Unit :=
  match proc with
  | none => Except.ok ()
  | some p =>
    match p.pollResult with
    | some _ => Except.ok ()
    | none =>
      match p.wait terminateTimeout with
      | WaitOutcome.exited _ => Except.ok ()
      | WaitOutcome.timedOut => Except.error ("Process did not terminate in time")

/-- The marker string `detect_process` requires in the swagger body. -/
def marker : String := "Aries Cloud Agent"

/-- Error message raised on readiness-probe timeout. -/
def timedOutMsg : String := "Timed out waiting for agent process to start"

/-- Error message raised when the swagger body lacks the marker. -/
def unexpectedMsg : String := "Unexpected response from agent process"

/-- One poll of `GET {admin_url}/api/docs/swagger.json`: either an aiohttp
`ClientError` or an HTTP response. -/
inductive PollResult where
  | clientError : PollResult
  | response (status : Nat) (body : String) : PollResult
deriving DecidableEq

/-- The `for i in range(10)` loop of `DemoAgent.detect_process` starting at
poll index `i` with `fuel` iterations left and current value of the `text`
variable; returns the value of `text` after the loop (a 200 response breaks
out with its body, a `ClientError` resets `text` to `None` and continues, any
other response continues with `text` unchanged). -/
def detectLoop (env : Nat → PollResult) (i fuel : Nat) (text : Option String) :
    Option String :=
  match fuel with
  | 0 => text
  | Nat.succ f =>
    match env i with
    | PollResult.clientError => detectLoop env (i + 1) f none
    | PollResult.response status body =>
      if status = 200 then some body else detectLoop env (i + 1) f text

/-- Number of polls the loop actually performs (it stops early only at the
first 200 response). -/
def pollCount (env : Nat → PollResult) (i fuel : Nat) : Nat :=
  match fuel with
  | 0 => 0
  | Nat.succ f =>
    match env i with
    | PollResult.clientError => 1 + pollCount env (i + 1) f
    | PollResult.response status _ =>
      if status = 200 then 1 else 1 + pollCount env (i + 1) f

/-- The fixed sleep before every poll (`await asyncio.sleep(2.0)`). -/
def pollDelay : ℚ := 2

/-- Time at which poll `k` is issued: each iteration first sleeps
`pollDelay`, so poll `k` (0-based) happens `pollDelay * (k+1)` seconds in. -/
def pollTime (k : Nat) : ℚ := pollDelay * (k + 1)

/-- `DemoAgent.detect_process` (lines 304-322): run the 10-iteration poll
loop, then raise the timeout error when `text` is falsy (None or empty), the
unexpected-response error when the marker is absent, and succeed otherwise. -/
def detect_process (env : Nat → PollResult) : Except String Unit :=
  match detectLoop env 0 10 none with
  | none => Except.error timedOutMsg
  | some text =>
    if text = "" then Except.error timedOutMsg
    else if strContains text marker then Except.ok ()
    else Except.error unexpectedMsg

/-- Does a poll result carry HTTP status 200? -/
def is200 : PollResult → Bool
  | PollResult.clientError => false
  | PollResult.response status _ => status = 200

/-- One row assembled by `DemoAgent.format_timing` from the timing dict:
(truncated name, count, total, avg, min, max). -/
abbrev TimingRow := String × Nat × ℚ × ℚ × ℚ × ℚ

/-- The timing dictionary consumed by `format_timing`: iteration follows
`timing["count"].items()` (insertion order of an association list); the
other four tables are keyed lookups.  Python float values are modelled as
rationals. -/
structure Timing where
  count : List (String × Nat)
  total : String → ℚ
  avg : String → ℚ
  min : String → ℚ
  max : String → ℚ

/-- Row construction in the `for name, count in timing["count"].items()`
loop: the name is truncated to 35 characters. -/
def timingRow (t : Timing) (nc : String × Nat) : TimingRow :=
  (strTake nc.1 35, nc.2, t.total nc.1, t.avg nc.1, t.min nc.1, t.max nc.1)

/-- The total column of a row (`row[2]`, the sort key). -/
def rowTotal (r : TimingRow) : ℚ := r.2.2.1

/-- `result.sort(key=lambda row: row[2], reverse=True)`: a stable sort,
descending by the total column. -/
def timingRowsSorted (t : Timing) : List TimingRow :=
  (t.count.map (timingRow t)).mergeSort (fun a b => decide (rowTotal b ≤ rowTotal a))

/-- Python `"{:>w}".format(s)` / `"{:wd}".format(n)` style right alignment:
pad on the left to a minimum width `w`. -/
def padLeft (w : Nat) (s : String) : String :=
  if s.length < w then String.mk (List.replicate (w - s.length) ' ') ++ s else s

/-- Python `"{:w}".format(s)` style left alignment for strings: pad on the
right to a minimum width `w`. -/
def padRight (w : Nat) (s : String) : String :=
  if s.length < w then s ++ String.mk (List.replicate (w - s.length) ' ') else s

/-- One data line
`"{:35} | {:12d} {:12.3f} {:10.3f} {:10.3f} {:10.3f}".format(*row)`;
`render3` abstracts Python's fixed-point rendering `{:.3f}` of a float. -/
def renderRow (render3 : ℚ → String) (r : TimingRow) : String :=
  padRight 35 r.1 ++ " | " ++ padLeft 12 (toString r.2.1) ++ " " ++
    padLeft 12 (render3 r.2.2.1) ++ " " ++ padLeft 10 (render3 r.2.2.2.1) ++ " " ++
    padLeft 10 (render3 r.2.2.2.2.1) ++ " " ++ padLeft 10 (render3 r.2.2.2.2.2)

/-- The header line
`"{:35} | {:>12} {:>12} {:>10} {:>10} {:>10}".format("", "count", ...)`. -/
def timingHeader : String :=
  padRight 35 "" ++ " | " ++ padLeft 12 ("count") ++ " " ++ padLeft 12 ("total") ++
    " " ++ padLeft 10 ("avg") ++ " " ++ padLeft 10 ("min") ++ " " ++ padLeft 10 ("max")

/-- `DemoAgent.format_timing` (lines 328-350): header, a 96-character `=`
separator, one line per sorted row, then an empty line. -/
def format_timing (render3 : ℚ → String) (t : Timing) : List String :=
  timingHeader :: String.mk (List.replicate 96 '=') ::
    ((timingRowsSorted t).map (renderRow render3) ++ [""])

/-! Concrete instances used in counterexamples and witnesses. -/

/-- A concrete JSON decoder over `Nat` payloads: only the body "1" parses. -/
def dec1 : String → Option Nat :=
  fun s => if s = "1" then some 1 else none

/-- A decoder for which every body parses to itself (payload type String). -/
def decId : String → Option String := fun s => some s

/-- An object on which every attribute lookup succeeds. -/
def hmAll : String → Bool := fun _ => true

/-- An object on which no attribute lookup succeeds. -/
def hmNone : String → Bool := fun _ => false

/-- A concrete fixed-point renderer producing a constant 5-character text. -/
def render0 : ℚ → String := fun _ => "0.000"

/-- A concrete timing dictionary with two metrics whose totals are out of
insertion order. -/
def t0 : Timing :=
  { count := [("outbound", 2), ("inbound", 7)]
    total := fun n => if n = "inbound" then 9 else 4
    avg := fun _ => 1
    min := fun _ => 0
    max := fun _ => 2 }

/-- An environment whose polls all answer 200 with a marker-free body. -/
def envNoMarker : Nat → PollResult := fun _ => PollResult.response 200 ("hello")

/-- An environment failing once with a `ClientError`, then ready. -/
def envReady : Nat → PollResult :=
  fun i => if i = 0 then PollResult.clientError
           else PollResult.response 200 ("Aries Cloud Agent API")

/-- An environment answering 200 with a marker-free body on the first poll. -/
def envBogus : Nat → PollResult := fun _ => PollResult.response 200 ("bogus")

/-- C3: `admin_request` raises exactly when the status is outside 2xx or a
nonempty body fails to decode in non-text mode, in each case with the
descriptive message from the source; otherwise it returns normally. -/
theorem admin_request_error_iff {J : Type} (dec : String → Option J)
    (resp : HttpResp) (tmode : Bool) :
    ((∃ msg, admin_request dec resp tmode = Except.error msg) ↔
      ((resp.status < 200 ∨ resp.status > 299) ∨
        (tmode = false ∧ resp.body ≠ "" ∧ dec resp.body = none))) ∧
    ((resp.status < 200 ∨ resp.status > 299) →
      admin_request dec resp tmode =
        Except.error ("Unexpected HTTP response: " ++ toString resp.status)) ∧
    (¬(resp.status < 200 ∨ resp.status > 299) → tmode = false →
      resp.body ≠ "" → dec resp.body = none →
      admin_request dec resp tmode =
        Except.error ("Error decoding JSON: " ++ resp.body)) := by
  unfold admin_request
  by_cases h1 : resp.status < 200 ∨ resp.status > 299
  · simp [h1]
  · by_cases h2 : resp.body = "" ∧ tmode = false
    · simp [h1, h2, h2.1, h2.2]
    · by_cases h3 : tmode = false
      · have hb : resp.body ≠ "" := by
          intro hb; exact h2 ⟨hb, h3⟩
        cases hdec : dec resp.body with
        | some v => simp [h1, h2, h3, hb, hdec]
        | none => simp [h1, h2, h3, hb, hdec]
      · have ht : tmode = true := by
          cases tmode
          · exact absurd rfl h3
          · rfl
        simp [h1, h2, ht]

/-- C3 witness: at status 404 the call errors with the descriptive message. -/
theorem admin_request_error_iff_witness :
    admin_request dec1 (HttpResp.mk 404 "") false =
      Except.error ("Unexpected HTTP response: 404") :=
  (admin_request_error_iff dec1 (HttpResp.mk 404 "") false).2.1 (by decide)

/-- C2 counterexample: in text mode (`text=True`) a 200 response with an
empty body yields the raw text `""`, not null, so the claim as stated over
every `admin_request` fails. -/
theorem admin_request_empty_text_cex :
    admin_request dec1 (HttpResp.mk 200 "") true = Except.ok (AdminValue.text "") ∧
    (Except.ok (AdminValue.text "") : Except String (AdminValue Nat)) ≠
      Except.ok AdminValue.null := by
  constructor
  · rfl
  · simp

/-- C2 (amended to non-text mode, the default of `admin_GET`/`admin_POST`):
a 404 yields an error, a 200 with empty body yields null, and a 200 whose
body decodes yields the parsed object.  The hypothesis `dec "" = none`
reflects that `json.loads("")` always fails. -/
theorem admin_request_json_mode {J : Type} (dec : String → Option J)
    (resp : HttpResp) (hdec0 : dec "" = none) :
    (resp.status = 404 → ∃ msg, admin_request dec resp false = Except.error msg) ∧
    (resp.status = 200 → resp.body = "" →
      admin_request dec resp false = Except.ok AdminValue.null) ∧
    (∀ v, resp.status = 200 → dec resp.body = some v →
      admin_request dec resp false = Except.ok (AdminValue.json v)) := by
  refine ⟨?_, ?_, ?_⟩
  · intro h404
    exact ((admin_request_error_iff dec resp false).1).2 (Or.inl (by omega))
  · intro h200 hbody
    unfold admin_request
    simp [h200, hbody]
  · intro v h200 hv
    have hb : resp.body ≠ "" := by
      intro hb
      rw [hb, hdec0] at hv
      exact Option.noConfusion hv
    unfold admin_request
    simp [h200, hb, hv]

/-- C2 witness: concrete 200 responses give null (empty body) and the parsed
object (body "1"), and a 404 errors. -/
theorem admin_request_json_mode_witness :
    admin_request dec1 (HttpResp.mk 200 "") false = Except.ok AdminValue.null ∧
    admin_request dec1 (HttpResp.mk 200 "1") false = Except.ok (AdminValue.json 1) ∧
    (∃ msg, admin_request dec1 (HttpResp.mk 404 "x") false = Except.error msg) :=
  ⟨(admin_request_json_mode dec1 (HttpResp.mk 200 "") (by decide)).2.1 rfl rfl,
   (admin_request_json_mode dec1 (HttpResp.mk 200 "1") (by decide)).2.2 1 rfl (by decide),
   (admin_request_json_mode dec1 (HttpResp.mk 404 "x") (by decide)).1 rfl⟩

/-- C8: `handle_webhook` never dispatches for the topic "webhook" (even when
the attribute exists), and for any other topic with no matching
`handle_{topic}` attribute it performs no invocation and returns normally. -/
theorem handle_webhook_guard {J : Type} (hasHandler : String → Bool) (payload : J) :
    handle_webhook hasHandler ("webhook") payload = [] ∧
    (∀ topic, hasHandler ("handle_" ++ topic) = false →
      handle_webhook hasHandler topic payload = []) := by
  constructor
  · unfold handle_webhook
    simp
  · intro topic hno
    unfold handle_webhook
    by_cases ht : topic = "webhook"
    · simp [ht]
    · simp [ht, hno]

/-- C8 witness: with every attribute present the "webhook" topic still
dispatches nothing, and with no attributes another topic dispatches
nothing. -/
theorem handle_webhook_guard_witness :
    handle_webhook hmAll ("webhook") ("p") = [] ∧
    handle_webhook hmNone ("basicmessages") ("p") = [] :=
  ⟨(handle_webhook_guard hmAll ("p")).1,
   (handle_webhook_guard hmNone ("p")).2 ("basicmessages") rfl⟩

/-- C4 counterexample: a POST to `/webhooks/topic/webhook/` is a POST to the
webhook route on which the handler attribute `handle_webhook` exists, yet no
handler is invoked (the claim requires exactly one invocation). -/
theorem receive_webhook_self_topic_cex :
    hmAll ("handle_" ++ "webhook") = true ∧
    receive_webhook hmAll decId ("webhook") ("x") =
      Except.ok (HttpResp.mk 200 "", ([] : List (String × String))) :=
  ⟨rfl, rfl⟩

/-- C4 (amended): for a parsed JSON body, a topic other than "webhook" whose
`handle_{topic}` attribute exists is dispatched to exactly once with the
parsed payload; for the topic "webhook" or a missing handler nothing is
invoked; in all parsed cases the HTTP response is 200 with an empty body. -/
theorem receive_webhook_dispatch {J : Type} (hasHandler : String → Bool)
    (dec : String → Option J) (topic body : String) (payload : J)
    (hdec : dec body = some payload) :
    (topic ≠ "webhook" → hasHandler ("handle_" ++ topic) = true →
      receive_webhook hasHandler dec topic body =
        Except.ok (HttpResp.mk 200 "", [("handle_" ++ topic, payload)])) ∧
    (topic = "webhook" ∨ hasHandler ("handle_" ++ topic) = false →
      receive_webhook hasHandler dec topic body =
        Except.ok (HttpResp.mk 200 "", ([] : List (String × J)))) := by
  constructor
  · intro ht hh
    unfold receive_webhook
    rw [hdec]
    unfold handle_webhook
    simp [ht, hh]
  · intro hcase
    unfold receive_webhook
    rw [hdec]
    rcases hcase with ht | hh
    · unfold handle_webhook
      simp [ht]
    · unfold handle_webhook
      by_cases ht : topic = "webhook"
      · simp [ht]
      · simp [ht, hh]

/-- C4 witness: topic "connections" with body `{"state":"active"}` invokes
the connections handler exactly once with the parsed payload, and the
response is 200 with an empty body. -/
theorem receive_webhook_dispatch_witness :
    receive_webhook hmAll decId ("connections") ("\x7b\"state\":\"active\"\x7d") =
      Except.ok (HttpResp.mk 200 "",
        [("handle_" ++ "connections", "\x7b\"state\":\"active\"\x7d")]) :=
  (receive_webhook_dispatch hmAll decId ("connections")
      ("\x7b\"state\":\"active\"\x7d") ("\x7b\"state\":\"active\"\x7d") rfl).1
    (by decide) rfl

/-- C6: terminating waits on the spawned process with the fixed half-second
timeout, and an error (with the source's message) is raised exactly when a
still-running process fails to exit within that timeout. -/
theorem terminate_spec (proc : Option ProcHandle) :
    terminateTimeout = 1 / 2 ∧
    ((∃ msg, _terminate proc = Except.error msg) ↔
      (∃ p, proc = some p ∧ p.pollResult = none ∧
        p.wait terminateTimeout = WaitOutcome.timedOut)) ∧
    (∀ p, proc = some p → p.pollResult = none →
      p.wait terminateTimeout = WaitOutcome.timedOut →
      _terminate proc = Except.error ("Process did not terminate in time")) := by
  refine ⟨rfl, ?_, ?_⟩
  · cases proc with
    | none => simp [_terminate]
    | some p =>
      cases hpoll : p.pollResult with
      | some c => simp [_terminate, hpoll]
      | none =>
        cases hw : p.wait terminateTimeout with
        | exited c => simp [_terminate, hpoll, hw]
        | timedOut => simp [_terminate, hpoll, hw]
  · intro p hp hpoll hw
    subst hp
    simp [_terminate, hpoll, hw]

/-- C6 witness: a concrete running handle whose wait times out makes
`_terminate` raise the termination error. -/
theorem terminate_spec_witness :
    _terminate (some (ProcHandle.mk none (fun _ => WaitOutcome.timedOut))) =
      Except.error ("Process did not terminate in time") :=
  (terminate_spec (some (ProcHandle.mk none (fun _ => WaitOutcome.timedOut)))).2.2
    (ProcHandle.mk none (fun _ => WaitOutcome.timedOut)) rfl rfl rfl

/-- C7 counterexample: `webhook_url` is `None` at construction and is
derived (assigned) later by `listen_webhooks`, so not every URL field is
derived exactly once at construction. -/
theorem webhook_url_assigned_later_cex :
    (DemoAgent_init ("alice") 8020 8021 none none).webhook_url = none ∧
    (listen_webhooks (DemoAgent_init ("alice") 8020 8021 none none) 8022).webhook_url =
      some ("http://localhost:8022/webhooks") ∧
    (listen_webhooks (DemoAgent_init ("alice") 8020 8021 none none) 8022).webhook_url ≠
      (DemoAgent_init ("alice") 8020 8021 none none).webhook_url := by
  refine ⟨rfl, rfl, by simp [listen_webhooks, DemoAgent_init]⟩

/-- C7 (amended): `endpoint` and `admin_url` are derived from the external
host and the ports at construction and are not touched by `listen_webhooks`;
`webhook_url` starts as `None` and is assigned by `listen_webhooks` from the
external host and the webhook port. -/
theorem urls_derived_once (ident : String) (hp ap : Nat)
    (ih eh : Option String) (s : DemoAgentState) (p : Nat) :
    (DemoAgent_init ident hp ap ih eh).endpoint = mkUrl (pyOr eh ("localhost")) hp ∧
    (DemoAgent_init ident hp ap ih eh).admin_url = mkUrl (pyOr eh ("localhost")) ap ∧
    (DemoAgent_init ident hp ap ih eh).webhook_url = none ∧
    (listen_webhooks s p).endpoint = s.endpoint ∧
    (listen_webhooks s p).admin_url = s.admin_url ∧
    (listen_webhooks s p).external_host = s.external_host ∧
    (listen_webhooks s p).webhook_url = some (mkUrl s.external_host p ++ "/webhooks") :=
  ⟨rfl, rfl, rfl, rfl, rfl, rfl, rfl⟩

/-! Characterization of the readiness-probe loop. -/

/-- One unfolding step of `detectLoop`. -/
theorem detectLoop_succ (env : Nat → PollResult) (i f : Nat) (text : Option String) :
    detectLoop env i (f + 1) text =
      match env i with
      | PollResult.clientError => detectLoop env (i + 1) f none
      | PollResult.response status body =>
        if status = 200 then some body else detectLoop env (i + 1) f text := rfl

/-- One unfolding step of `pollCount`. -/
theorem pollCount_succ (env : Nat → PollResult) (i f : Nat) :
    pollCount env i (f + 1) =
      match env i with
      | PollResult.clientError => 1 + pollCount env (i + 1) f
      | PollResult.response status _ =>
        if status = 200 then 1 else 1 + pollCount env (i + 1) f := rfl

/-- If no poll in the window returns 200, the loop leaves `text` unset. -/
theorem detectLoop_eq_none (env : Nat → PollResult) :
    ∀ fuel i, (∀ k, k < fuel → is200 (env (i + k)) = false) →
      detectLoop env i fuel none = none := by
  intro fuel
  induction fuel with
  | zero => intro i _; rfl
  | succ f ih =>
    intro i h
    have h0 : is200 (env i) = false := by
      have := h 0 (Nat.succ_pos f)
      rwa [Nat.add_zero] at this
    have hrest : ∀ k, k < f → is200 (env (i + 1 + k)) = false := by
      intro k hk
      have hh := h (k + 1) (Nat.succ_lt_succ hk)
      rwa [show i + (k + 1) = i + 1 + k by omega] at hh
    cases he : env i with
    | clientError =>
      rw [detectLoop_succ, he]
      exact ih (i + 1) hrest
    | response s b =>
      have hs : ¬ s = 200 := by
        rw [he] at h0
        simpa [is200] using h0
      rw [detectLoop_succ, he]
      show (if s = 200 then some b else detectLoop env (i + 1) f none) = none
      rw [if_neg hs]
      exact ih (i + 1) hrest

/-- The loop breaks at the first 200 response with that response's body. -/
theorem detectLoop_eq_some (env : Nat → PollResult) :
    ∀ fuel k i body, k < fuel → env (i + k) = PollResult.response 200 body →
      (∀ j, j < k → is200 (env (i + j)) = false) →
      detectLoop env i fuel none = some body := by
  intro fuel
  induction fuel with
  | zero => intro k i body hk _ _; exact absurd hk (Nat.not_lt_zero k)
  | succ f ih =>
    intro k i body hk h200 hbef
    cases k with
    | zero =>
      rw [Nat.add_zero] at h200
      rw [detectLoop_succ, h200]
      show (if 200 = 200 then some body else detectLoop env (i + 1) f none) = some body
      rw [if_pos rfl]
    | succ m =>
      have h0 : is200 (env i) = false := by
        have := hbef 0 (Nat.succ_pos m)
        rwa [Nat.add_zero] at this
      have hs200 : env (i + 1 + m) = PollResult.response 200 body := by
        rw [show i + 1 + m = i + (m + 1) by omega]
        exact h200
      have hrest : ∀ j, j < m → is200 (env (i + 1 + j)) = false := by
        intro j hj
        have hh := hbef (j + 1) (Nat.succ_lt_succ hj)
        rwa [show i + (j + 1) = i + 1 + j by omega] at hh
      cases he : env i with
      | clientError =>
        rw [detectLoop_succ, he]
        exact ih m (i + 1) body (by omega) hs200 hrest
      | response s b =>
        have hs : ¬ s = 200 := by
          rw [he] at h0
          simpa [is200] using h0
        rw [detectLoop_succ, he]
        show (if s = 200 then some b else detectLoop env (i + 1) f none) = some body
        rw [if_neg hs]
        exact ih m (i + 1) body (by omega) hs200 hrest

/-- The loop never performs more polls than it has iterations. -/
theorem pollCount_le (env : Nat → PollResult) :
    ∀ fuel i, pollCount env i fuel ≤ fuel := by
  intro fuel
  induction fuel with
  | zero => intro _; exact Nat.le_refl 0
  | succ f ih =>
    intro i
    rw [pollCount_succ]
    cases he : env i with
    | clientError =>
      show 1 + pollCount env (i + 1) f ≤ f + 1
      have := ih (i + 1)
      omega
    | response s b =>
      show (if s = 200 then 1 else 1 + pollCount env (i + 1) f) ≤ f + 1
      by_cases hs : s = 200
      · rw [if_pos hs]
        omega
      · rw [if_neg hs]
        have := ih (i + 1)
        omega

/-- When the first 200 response is at offset `k`, exactly `k+1` polls run. -/
theorem pollCount_first200 (env : Nat → PollResult) :
    ∀ fuel k i body, k < fuel → env (i + k) = PollResult.response 200 body →
      (∀ j, j < k → is200 (env (i + j)) = false) →
      pollCount env i fuel = k + 1 := by
  intro fuel
  induction fuel with
  | zero => intro k i body hk _ _; exact absurd hk (Nat.not_lt_zero k)
  | succ f ih =>
    intro k i body hk h200 hbef
    cases k with
    | zero =>
      rw [Nat.add_zero] at h200
      rw [pollCount_succ, h200]
      show (if 200 = 200 then 1 else 1 + pollCount env (i + 1) f) = 0 + 1
      rw [if_pos rfl]
    | succ m =>
      have h0 : is200 (env i) = false := by
        have := hbef 0 (Nat.succ_pos m)
        rwa [Nat.add_zero] at this
      have hs200 : env (i + 1 + m) = PollResult.response 200 body := by
        rw [show i + 1 + m = i + (m + 1) by omega]
        exact h200
      have hrest : ∀ j, j < m → is200 (env (i + 1 + j)) = false := by
        intro j hj
        have hh := hbef (j + 1) (Nat.succ_lt_succ hj)
        rwa [show i + (j + 1) = i + 1 + j by omega] at hh
      have hcnt := ih m (i + 1) body (by omega) hs200 hrest
      cases he : env i with
      | clientError =>
        rw [pollCount_succ, he]
        show 1 + pollCount env (i + 1) f = m + 1 + 1
        omega
      | response s b =>
        have hs : ¬ s = 200 := by
          rw [he] at h0
          simpa [is200] using h0
        rw [pollCount_succ, he]
        show (if s = 200 then 1 else 1 + pollCount env (i + 1) f) = m + 1 + 1
        rw [if_neg hs]
        omega

/-- Shared case analysis of `detect_process` when the first 200 response in
the 10-poll window sits at offset `k`. -/
theorem detect_first200_cases (env : Nat → PollResult) (k : Nat) (body : String)
    (hk : k < 10) (h200 : env k = PollResult.response 200 body)
    (hbef : ∀ j, j < k → is200 (env j) = false) :
    (strContains body marker = true → detect_process env = Except.ok ()) ∧
    (body = "" → detect_process env = Except.error timedOutMsg) ∧
    (body ≠ "" → strContains body marker = false →
      detect_process env = Except.error unexpectedMsg) := by
  have hsome : detectLoop env 0 10 none = some body :=
    detectLoop_eq_some env 10 k 0 body hk (by rwa [Nat.zero_add])
      (fun j hj => by rw [Nat.zero_add]; exact hbef j hj)
  refine ⟨?_, ?_, ?_⟩
  · intro hm
    have hne : ¬ body = "" := by
      intro h0
      rw [h0] at hm
      exact absurd hm (by decide)
    unfold detect_process
    rw [hsome]
    show (if body = "" then Except.error timedOutMsg
      else if strContains body marker = true then Except.ok ()
      else Except.error unexpectedMsg) = Except.ok ()
    rw [if_neg hne, if_pos hm]
  · intro h0
    unfold detect_process
    rw [hsome]
    show (if body = "" then Except.error timedOutMsg
      else if strContains body marker = true then Except.ok ()
      else Except.error unexpectedMsg) = Except.error timedOutMsg
    rw [if_pos h0]
  · intro hne hm
    unfold detect_process
    rw [hsome]
    show (if body = "" then Except.error timedOutMsg
      else if strContains body marker = true then Except.ok ()
      else Except.error unexpectedMsg) = Except.error unexpectedMsg
    rw [if_neg hne]
    simp [hm]

/-- Shared lemma: with no 200 response in the window, `detect_process`
raises the timeout error. -/
theorem detect_no200_timeout (env : Nat → PollResult)
    (hall : ∀ k, k < 10 → is200 (env k) = false) :
    detect_process env = Except.error timedOutMsg := by
  have hnone : detectLoop env 0 10 none = none :=
    detectLoop_eq_none env 10 0 (fun k hk => by rw [Nat.zero_add]; exact hall k hk)
  unfold detect_process
  rw [hnone]

/-- C1 counterexample: against `envNoMarker` no poll ever returns a body
containing the marker (so per the claim detection must fail with the timeout
error), yet `detect_process` raises the unexpected-response error instead. -/
theorem detect_no_success_not_timeout_cex :
    strContains ("hello") marker = false ∧
    detect_process envNoMarker = Except.error unexpectedMsg ∧
    unexpectedMsg ≠ timedOutMsg := by
  refine ⟨by decide, ?_, by decide⟩
  rfl

/-- C1 (amended): the probe polls at most 10 times, spaced `pollDelay = 2`
seconds apart; if the first 200 of the window carries the marker it
succeeds; a 200 with empty body, or a window without any 200, raises the
timeout error; a nonempty 200 body without the marker raises the
unexpected-response error instead. -/
theorem detect_process_spec (env : Nat → PollResult) :
    pollCount env 0 10 ≤ 10 ∧
    (∀ k, pollTime (k + 1) - pollTime k = pollDelay) ∧
    (∀ k body, k < 10 → env k = PollResult.response 200 body →
      (∀ j, j < k → is200 (env j) = false) →
      ((strContains body marker = true → detect_process env = Except.ok ()) ∧
       (body = "" → detect_process env = Except.error timedOutMsg) ∧
       (body ≠ "" → strContains body marker = false →
         detect_process env = Except.error unexpectedMsg))) ∧
    ((∀ k, k < 10 → is200 (env k) = false) →
      detect_process env = Except.error timedOutMsg) := by
  refine ⟨pollCount_le env 10 0, ?_, ?_, detect_no200_timeout env⟩
  · intro k
    unfold pollTime pollDelay
    push_cast
    ring
  · intro k body hk h200 hbef
    exact detect_first200_cases env k body hk h200 hbef

/-- C1 witness: against `envReady` the second poll returns 200 with the
marker and detection succeeds. -/
theorem detect_process_spec_witness :
    detect_process envReady = Except.ok () :=
  ((detect_process_spec envReady).2.2.1 1 ("Aries Cloud Agent API") (by omega)
      rfl
      (fun j hj => by
        have hj0 : j = 0 := by omega
        subst hj0
        rfl)).1 (by decide)

/-- C9: when the first 200 in the window has a nonempty body lacking the
marker, `detect_process` stops polling there (`k+1` polls) and raises the
unexpected-response error, which is distinct from the timeout error; when
that first 200 has an empty body, it raises the timeout error instead. -/
theorem detect_unexpected_vs_timeout (env : Nat → PollResult) (k : Nat)
    (body : String) (hk : k < 10) (h200 : env k = PollResult.response 200 body)
    (hbef : ∀ j, j < k → is200 (env j) = false) :
    (body ≠ "" → strContains body marker = false →
      detect_process env = Except.error unexpectedMsg ∧
        pollCount env 0 10 = k + 1) ∧
    (body = "" → detect_process env = Except.error timedOutMsg) ∧
    unexpectedMsg ≠ timedOutMsg := by
  have hcases := detect_first200_cases env k body hk h200 hbef
  have hcnt : pollCount env 0 10 = k + 1 :=
    pollCount_first200 env 10 k 0 body hk (by rwa [Nat.zero_add])
      (fun j hj => by rw [Nat.zero_add]; exact hbef j hj)
  exact ⟨fun hne hm => ⟨hcases.2.2 hne hm, hcnt⟩, hcases.2.1, by decide⟩

/-- C9 witness: one poll against `envBogus` suffices to raise the
unexpected-response error. -/
theorem detect_unexpected_vs_timeout_witness :
    detect_process envBogus = Except.error unexpectedMsg ∧
    pollCount envBogus 0 10 = 1 :=
  (detect_unexpected_vs_timeout envBogus 0 ("bogus") (by omega) rfl
      (fun j hj => absurd hj (Nat.not_lt_zero j))).1 (by decide) (by decide)

/-! Timing-report formatting. -/

/-- A truncated name has at most the requested length. -/
theorem strTake_length_le (s : String) (n : Nat) : (strTake s n).length ≤ n := by
  show (s.toList.take n).length ≤ n
  rw [List.length_take]
  exact Nat.min_le_left n s.toList.length

/-- Right-aligned padding reaches exactly the column width when the content
fits. -/
theorem padLeft_length (w : Nat) (s : String) (h : s.length ≤ w) :
    (padLeft w s).length = w := by
  unfold padLeft
  by_cases hlt : s.length < w
  · rw [if_pos hlt, String.length_append]
    simp only [String.length_mk, List.length_replicate]
    omega
  · rw [if_neg hlt]
    omega

/-- Left-aligned padding reaches exactly the column width when the content
fits. -/
theorem padRight_length (w : Nat) (s : String) (h : s.length ≤ w) :
    (padRight w s).length = w := by
  unfold padRight
  by_cases hlt : s.length < w
  · rw [if_pos hlt, String.length_append]
    simp only [String.length_mk, List.length_replicate]
    omega
  · rw [if_neg hlt]
    omega

/-- A data row rendered from fitting column contents is exactly 96
characters, the layout of the header and separator. -/
theorem renderRow_length (render3 : ℚ → String) (r : TimingRow)
    (hname : r.1.length ≤ 35)
    (hcount : (toString r.2.1).length ≤ 12)
    (h1 : (render3 r.2.2.1).length ≤ 12)
    (h2 : (render3 r.2.2.2.1).length ≤ 10)
    (h3 : (render3 r.2.2.2.2.1).length ≤ 10)
    (h4 : (render3 r.2.2.2.2.2).length ≤ 10) :
    (renderRow render3 r).length = 96 := by
  have e1 := padRight_length 35 r.1 hname
  have e2 := padLeft_length 12 (toString r.2.1) hcount
  have e3 := padLeft_length 12 (render3 r.2.2.1) h1
  have e4 := padLeft_length 10 (render3 r.2.2.2.1) h2
  have e5 := padLeft_length 10 (render3 r.2.2.2.2.1) h3
  have e6 := padLeft_length 10 (render3 r.2.2.2.2.2) h4
  unfold renderRow
  simp only [String.length_append, e1, e2, e3, e4, e5, e6]
  rfl

/-- Every row produced by the sort comes from a timing entry and so carries
a name truncated to at most 35 characters. -/
theorem timingRowsSorted_name_le (t : Timing) :
    ∀ r ∈ timingRowsSorted t, r.1.length ≤ 35 := by
  intro r hr
  have hr2 : r ∈ t.count.map (timingRow t) := by
    have := List.mem_mergeSort.1 hr
    exact this
  rcases List.mem_map.1 hr2 with ⟨nc, _, hnc⟩
  rw [← hnc]
  exact strTake_length_le nc.1 35

/-- C5: `format_timing` lists the data rows sorted by the total column in
descending order, after a header and a 96-character separator; whenever the
rendered numeric fields fit their columns, every data row has the same
96-character fixed-width layout. -/
theorem format_timing_sorted_fixed_width (render3 : ℚ → String) (t : Timing)
    (hcount : ∀ r ∈ timingRowsSorted t, (toString r.2.1).length ≤ 12)
    (hrender : ∀ q, (render3 q).length ≤ 10) :
    List.Pairwise (fun a b : TimingRow => rowTotal b ≤ rowTotal a)
      (timingRowsSorted t) ∧
    (∀ line ∈ (timingRowsSorted t).map (renderRow render3), line.length = 96) ∧
    format_timing render3 t =
      timingHeader :: String.mk (List.replicate 96 '=') ::
        ((timingRowsSorted t).map (renderRow render3) ++ [""]) := by
  refine ⟨?_, ?_, rfl⟩
  · have hs : ((t.count.map (timingRow t)).mergeSort
        (fun a b : TimingRow => decide (rowTotal b ≤ rowTotal a))).Pairwise
        (fun a b : TimingRow => decide (rowTotal b ≤ rowTotal a) = true) :=
      List.sorted_mergeSort
        (fun a b c hab hbc => by
          simp only [decide_eq_true_eq] at hab hbc ⊢
          exact le_trans hbc hab)
        (fun a b => by
          simp only [Bool.or_eq_true, decide_eq_true_eq]
          exact le_total (rowTotal b) (rowTotal a))
        (t.count.map (timingRow t))
    exact hs.imp (fun h => of_decide_eq_true h)
  · intro line hline
    rcases List.mem_map.1 hline with ⟨r, hr, hrl⟩
    rw [← hrl]
    exact renderRow_length render3 r (timingRowsSorted_name_le t r hr)
      (hcount r hr) (le_trans (hrender _) (by omega)) (hrender _) (hrender _)
      (hrender _)

/-- C5 witness: the concrete timing dictionary `t0` rendered with `render0`
comes out sorted descending by total and with 96-character data rows. -/
theorem format_timing_sorted_fixed_width_witness :
    List.Pairwise (fun a b : TimingRow => rowTotal b ≤ rowTotal a)
      (timingRowsSorted t0) ∧
    (∀ line ∈ (timingRowsSorted t0).map (renderRow render0), line.length = 96) ∧
    format_timing render0 t0 =
      timingHeader :: String.mk (List.replicate 96 '=') ::
        ((timingRowsSorted t0).map (renderRow render0) ++ [""]) :=
  format_timing_sorted_fixed_width render0 t0
    (by
      intro r hr
      rcases List.mem_map.1 (List.mem_mergeSort.1 hr) with ⟨nc, hnc, he⟩
      have hcases : nc = ("outbound", 2) ∨ nc = ("inbound", 7) := by
        simpa [t0] using hnc
      rcases hcases with h | h <;> rw [← he, h] <;> decide)
    (fun q => by
      show ("0.000" : String).length ≤ 10
      decide)
